import Mathlib

/-!
# Verification of the resilient MPD command proxy (raspi-gpio-mpdc)

Shallow embedding of the core of `src/persistentmpdc.py` (the class
`PersistentMPDClient`, duplicated verbatim in `src/raspi-gpio-mpdc.py`) and of
the start-up retry loop `RaspiGPIOMPDClient.connectMPD` in
`src/raspi-gpio-mpdc.py`.

The Python code is effectful: it calls into the third-party `mpd.MPDClient`
(`ping`, `connect`, `disconnect`, `commands`, the individual commands) and
these calls may raise exceptions.  We embed each repository function as a pure
Lean function over *oracles*: one parameter per external call site, giving the
outcome (`Except Exc Unit`, or a value) that this call would produce.  The
function returns its Python result as an `Except` (so that propagated
exceptions are visible) together with the ordered trace of external calls it
performed, so that "exactly one reconnect attempt before the command" style
properties are statements about the trace.
-/

/-- The exception classes relevant to the source.  Python's hierarchy:
`BrokenPipeError ⊂ OSError = socket.error`, while `mpd.ConnectionError` and
`mpd.CommandError` are not `OSError`s.  We keep one constructor per class that
the source distinguishes, plus `otherError` for any unrelated exception. -/
inductive Exc where
  | mpdConnectionError
  | brokenPipeError
  | osError
  | mpdCommandError
  | otherError
deriving DecidableEq, Repr

/-- The exception classes caught by `except (mpd.ConnectionError, OSError)` in
`try_cmd` (src/persistentmpdc.py line 85): `mpd.ConnectionError` or any
`OSError` (which includes `BrokenPipeError`). -/
def isConnectionClass : Exc → Bool
  | .mpdConnectionError => true
  | .brokenPipeError => true
  | .osError => true
  | .mpdCommandError => false
  | .otherError => false

/-- The exception classes caught by `except socket.error` in `do_connect`
(src/persistentmpdc.py line 117): `socket.error` is an alias of `OSError`,
which includes `BrokenPipeError` but not the mpd-level exceptions. -/
def isSocketError : Exc → Bool
  | .mpdConnectionError => false
  | .brokenPipeError => true
  | .osError => true
  | .mpdCommandError => false
  | .otherError => false

/-- External call sites of the embedded functions, recorded in traces. -/
inductive Event where
  | pingCall
  | doConnectCall
  | cmdCall
  | disconnectCall
  | connectCall
deriving DecidableEq, Repr

/-- Embedding of the closure `func` built by
`PersistentMPDClient.try_cmd` (src/persistentmpdc.py lines 77-89):

```
def func(*pargs, **kwargs):
    try:
        self.ping()
    except (mpd.ConnectionError, OSError):
        self.do_connect()
    return cmd_func(*pargs, **kwargs)
```

Oracles: `pingR` is the outcome of `self.ping()`; `connectR` is the outcome of
`self.do_connect()` (which returns a `Bool` or itself raises, see
`do_connect` below); `cmdR` is the outcome `cmd_func(*pargs, **kwargs)` would
produce if called.  The returned trace records, in order, the external calls
the closure actually performs. -/
def try_cmd (pingR : Except Exc Unit) (connectR : Except Exc Bool)
    (cmdR : Except Exc α) : Except Exc α × List Event :=
  match pingR with
  | .ok _ => (cmdR, [.pingCall, .cmdCall])
  | .error e =>
    if isConnectionClass e then
      match connectR with
      | .ok _ => (cmdR, [.pingCall, .doConnectCall, .cmdCall])
      | .error e2 => (.error e2, [.pingCall, .doConnectCall])
    else (.error e, [.pingCall])

/-- Second half of `do_connect` (src/persistentmpdc.py lines 112-120): the
fresh `self.connect(...)` call under the outer `except socket.error` handler.
`connR` is the outcome of `self.connect(...)`; `tr` is the trace accumulated
by the disconnect phase. -/
def do_connect_fresh (connR : Except Exc Unit) (tr : List Event) :
    Except Exc Bool × List Event :=
  match connR with
  | .ok _ => (.ok true, tr ++ [.connectCall])
  | .error e =>
    if isSocketError e then (.ok false, tr ++ [.connectCall])
    else (.error e, tr ++ [.connectCall])

set_option linter.unusedVariables false

/-- Embedding of `PersistentMPDClient.do_connect`
(src/persistentmpdc.py lines 92-120).  Oracles: `disc1R` is the outcome of the
first `self.disconnect()`; `disc2R` the outcome of the retried
`self.disconnect()` in the `except BrokenPipeError` handler (its failure is
swallowed by `except Exception: pass`); `connR` the outcome of
`self.connect(...)`.  A first-disconnect exception that is neither
`mpd.ConnectionError` nor `BrokenPipeError` escapes the inner `try` and hits
the outer `except socket.error` handler: if it is an `OSError` the function
returns `False` without attempting the fresh connect, otherwise it
propagates. -/
def do_connect (disc1R disc2R connR : Except Exc Unit) :
    Except Exc Bool × List Event :=
  match disc1R with
  | .ok _ => do_connect_fresh connR [.disconnectCall]
  | .error .mpdConnectionError => do_connect_fresh connR [.disconnectCall]
  | .error .brokenPipeError => do_connect_fresh connR [.disconnectCall, .disconnectCall]
  | .error e =>
    if isSocketError e then (.ok false, [.disconnectCall])
    else (.error e, [.disconnectCall])

/-- `self.command_blacklist = ["ping"]` (src/persistentmpdc.py line 26). -/
def command_blacklist : List String := ["ping"]

/-- Embedding of the loop body of `PersistentMPDClient.establish_commandlist`
(src/persistentmpdc.py lines 49-69): the list of command names that end up
proxy-wrapped (`setattr`) when the server reports `command_list`.  A name is
wrapped iff it is not in the blacklist and
`hasattr(super(PersistentMPDClient, self), cmd)` holds; names failing the
`hasattr` test are only logged.  `hasattr` is the oracle for that test. -/
def establish_commandlist (command_list : List String)
    (hasattr : String → Bool) : List String :=
  command_list.filter (fun cmd => !(command_blacklist.contains cmd) && hasattr cmd)

/-- The mutable state of `PersistentMPDClient` relevant to the registry:
the `connection_established` flag and the set of wrapped command names
(the proxy table installed by `setattr`). -/
structure ClientState where
  connection_established : Bool
  table : List String
deriving DecidableEq, Repr

/-- Embedding of `PersistentMPDClient.establish_connection`
(src/persistentmpdc.py lines 31-47):

```
if not self.do_connect(False):
    return
if not self.connection_established:
    self.establish_commandlist()
```

wrapped in `try ... except Exception: log`.  Oracles: `connectOk` is the
boolean result of `self.do_connect(False)` (an exception escaping it would be
caught by the outer handler, covered by `commandsR`-style absorption);
`commandsR` is the outcome of `self.commands()` inside
`establish_commandlist` — when it raises, the outer `except Exception`
handler logs and returns with the state unchanged; `hasattr` as in
`establish_commandlist`. -/
def establish_connection (connectOk : Bool)
    (commandsR : Except Exc (List String)) (hasattr : String → Bool)
    (s : ClientState) : ClientState :=
  if !connectOk then s
  else if !s.connection_established then
    match commandsR with
    | .ok cl => { connection_established := true,
                  table := establish_commandlist cl hasattr }
    | .error _ => s
  else s

/-- Outcome of one iteration body of the `connectMPD` retry loop
(src/raspi-gpio-mpdc.py lines 282-292), i.e. of the `try` block

```
self.mpd.establish_connection()
self.isConnected = self.mpd.connection_established
if self.isConnected:
    self._log.debug(self.mpd.status())
    return True
```

* `established`: `connection_established` became true and the `status()`
  debug call returned normally — the loop returns `True`;
* `notEstablished`: `connection_established` stayed false (e.g. the server
  refused the connection) — the loop continues;
* `raisedBefore`: an exception was raised before `isConnected` was set to
  true; it is caught by `except Exception: pass` and the loop continues;
* `raisedAfter`: `isConnected` was set to true but the `self.mpd.status()`
  call raised; the exception is caught, and the `while` condition
  `not self.isConnected` then ends the loop, which returns `False`. -/
inductive AttemptOutcome where
  | established
  | notEstablished
  | raisedBefore
  | raisedAfter
deriving DecidableEq, Repr

/-- The `while (not self.isConnected) and (num_tried < self.mpd_conn_timeout)`
loop of `connectMPD` (src/raspi-gpio-mpdc.py lines 282-294), for an
initially-unconnected client.  `att n` is the outcome of the attempt with
`num_tried = n`.  Returns the boolean result of `connectMPD` together with the
number of attempts (iterations of the body) performed.  All exceptions raised
by an attempt are absorbed by `except Exception: pass`, which is why the
result type carries no exception. -/
def connectLoop (att : Nat → AttemptOutcome) (timeout : Nat) :
    Nat → Bool × Nat
  | n =>
    if n < timeout then
      match att n with
      | .established => (true, n + 1)
      | .raisedAfter => (false, n + 1)
      | .notEstablished => connectLoop att timeout (n + 1)
      | .raisedBefore => connectLoop att timeout (n + 1)
    else (false, n)
termination_by n => timeout - n

/-- Embedding of `RaspiGPIOMPDClient.connectMPD`
(src/raspi-gpio-mpdc.py lines 271-294): `if not self.mpd: return False`, then
the retry loop starting from `num_tried = 0`; if `isConnected` is already true
the `while` body never runs and the function falls through to
`return False`. -/
def connectMPD (hasMpd isConnected : Bool) (att : Nat → AttemptOutcome)
    (timeout : Nat) : Bool × Nat :=
  if !hasMpd then (false, 0)
  else if isConnected then (false, 0)
  else connectLoop att timeout 0

/-- The transport-connection state of the underlying `mpd.MPDClient`. -/
structure MPDConn where
  connected : Bool
deriving DecidableEq, Repr

/-- Modelled from the spec: `mpd.MPDClient.disconnect` is implemented in the
third-party `mpd` library, not under src/; the spec states
"`disconnect()`: idempotent — safe to call when already disconnected".  It
tears the connection down and returns normally whatever the prior state. -/
def disconnect (s : MPDConn) : Except Exc MPDConn :=
  .ok { connected := false }

/-- Embedding of `RaspiGPIOMPDClient.finalize`
(src/raspi-gpio-mpdc.py lines 195-197): `if self.mpd is not None:
self.mpd.disconnect()`.  `mpdPresent` is the `self.mpd is not None` test. -/
def finalize (mpdPresent : Bool) (s : MPDConn) : Except Exc MPDConn :=
  if mpdPresent then disconnect s else .ok s

/-- Embedding of the `finally` block of `main`
(src/raspi-gpio-mpdc.py lines 595-599): `if mpdclient and
mpdclient.isConnected: mpdclient.mpd.disconnect()`. -/
def main_teardown (clientPresent isConnected : Bool) (s : MPDConn) :
    Except Exc MPDConn :=
  if clientPresent && isConnected then disconnect s else .ok s

/-- The two close-failure shapes tolerated by the disconnect phase of
`do_connect` (plus the clean close): `mpd.ConnectionError` is passed over,
`BrokenPipeError` leads to one retried close whose outcome is swallowed. -/
def tolerated_close (r : Except Exc Unit) : Bool :=
  match r with
  | .ok _ => true
  | .error .mpdConnectionError => true
  | .error .brokenPipeError => true
  | .error _ => false

/-- Claim C2: when the health check succeeds, the wrapper performs exactly one
ping, zero reconnect attempts, and exactly one underlying command call, and
returns the underlying command's result unchanged. -/
theorem C2_healthy_single_call (connectR : Except Exc Bool)
    (cmdR : Except Exc α) :
    (try_cmd (.ok ()) connectR cmdR).1 = cmdR ∧
    (try_cmd (.ok ()) connectR cmdR).2 = [.pingCall, .cmdCall] ∧
    (try_cmd (.ok ()) connectR cmdR).2.count .pingCall = 1 ∧
    (try_cmd (.ok ()) connectR cmdR).2.count .doConnectCall = 0 ∧
    (try_cmd (.ok ()) connectR cmdR).2.count .cmdCall = 1 :=
  ⟨rfl, rfl, rfl, rfl, rfl⟩

/-- Claim C10: when the health check raises an exception that is neither an
mpd `ConnectionError` nor an `OSError`, the wrapper propagates it, makes no
reconnect attempt, and never invokes the underlying command. -/
theorem C10_non_connection_error_propagates (e : Exc)
    (he : isConnectionClass e = false) (connectR : Except Exc Bool)
    (cmdR : Except Exc α) :
    try_cmd (.error e) connectR cmdR = (.error e, [.pingCall]) := by
  simp [try_cmd, he]

/-- Claim C10 witness: a server-side `mpd.CommandError` raised by the health
check propagates with no reconnect and no command call. -/
theorem C10_non_connection_error_propagates_witness :
    try_cmd (.error .mpdCommandError) (.ok true) (.ok () : Except Exc Unit)
      = (.error .mpdCommandError, [.pingCall]) :=
  C10_non_connection_error_propagates .mpdCommandError rfl (.ok true) (.ok ())

/-- Claim C1 counterexample: the health check raises a connection-class error
(`mpd.ConnectionError`), the reconnect attempt `do_connect()` itself raises
(e.g. a non-socket error escaping its teardown or handshake), and then the
underlying command is invoked zero times — not "exactly once regardless of
whether that reconnect attempt succeeded" — while the wrapper propagates the
reconnect's exception. -/
theorem C1_counterexample_reconnect_raises :
    isConnectionClass .mpdConnectionError = true ∧
    (try_cmd (.error .mpdConnectionError) (.error .otherError)
        (.ok () : Except Exc Unit)).2.count .cmdCall = 0 ∧
    (try_cmd (.error .mpdConnectionError) (.error .otherError)
        (.ok () : Except Exc Unit)).1 = .error .otherError :=
  ⟨rfl, rfl, rfl⟩

/-- Claim C1 (amended): when the health check raises a connection-class error,
exactly one reconnect attempt is made before the underlying command; if the
reconnect attempt returns (success or failure alike), the underlying command
is invoked exactly once; if the reconnect attempt itself raises, its exception
propagates and the underlying command is not invoked. -/
theorem C1_reconnect_once_then_command (e : Exc)
    (he : isConnectionClass e = true) (b : Bool) (e2 : Exc)
    (cmdR : Except Exc α) :
    try_cmd (.error e) (.ok b) cmdR
      = (cmdR, [.pingCall, .doConnectCall, .cmdCall]) ∧
    try_cmd (.error e) (.error e2) cmdR
      = (.error e2, [.pingCall, .doConnectCall]) := by
  constructor <;> simp [try_cmd, he]

/-- Claim C1 witness: ping fails with an `OSError`, the reconnect attempt
returns `False`, and the underlying command is still invoked exactly once,
after the single reconnect attempt. -/
theorem C1_reconnect_once_then_command_witness :
    try_cmd (.error .osError) (.ok false) (.ok () : Except Exc Unit)
      = (.ok (), [.pingCall, .doConnectCall, .cmdCall]) :=
  (C1_reconnect_once_then_command .osError rfl false .otherError (.ok ())).1

/-- Claim C3: the underlying command is invoked at most once per wrapped
invocation, and whenever it is invoked, the wrapper's result is exactly the
underlying command's outcome — an error it raises (connection-class or not)
propagates unchanged, never retried and never swallowed. -/
theorem C3_command_result_unchanged (pingR : Except Exc Unit)
    (connectR : Except Exc Bool) (cmdR : Except Exc α) :
    (try_cmd pingR connectR cmdR).2.count .cmdCall ≤ 1 ∧
    ((try_cmd pingR connectR cmdR).2.count .cmdCall = 1 →
      (try_cmd pingR connectR cmdR).1 = cmdR) := by
  rcases pingR with e | u
  · rcases hc : isConnectionClass e with _ | _
    · have h2 : (try_cmd (.error e) connectR cmdR).2 = [.pingCall] := by
        simp [try_cmd, hc]
      rw [h2]
      exact ⟨by decide, fun hcount => absurd hcount (by decide)⟩
    · rcases connectR with e2 | b
      · have h2 : (try_cmd (.error e) (.error e2 : Except Exc Bool) cmdR).2
            = [.pingCall, .doConnectCall] := by
          simp [try_cmd, hc]
        rw [h2]
        exact ⟨by decide, fun hcount => absurd hcount (by decide)⟩
      · have h2 : (try_cmd (.error e) (.ok b : Except Exc Bool) cmdR).2
            = [.pingCall, .doConnectCall, .cmdCall] := by
          simp [try_cmd, hc]
        have h1 : (try_cmd (.error e) (.ok b : Except Exc Bool) cmdR).1
            = cmdR := by
          simp [try_cmd, hc]
        rw [h2]
        exact ⟨by decide, fun _ => h1⟩
  · have h2 : (try_cmd (.ok u) connectR cmdR).2 = [.pingCall, .cmdCall] := rfl
    rw [h2]
    exact ⟨by decide, fun _ => rfl⟩

/-- Claim C3 witness: after a failed (but returning) reconnect, a
connection-class error raised by the underlying command itself propagates
unchanged to the caller. -/
theorem C3_command_result_unchanged_witness :
    (try_cmd (.error .brokenPipeError) (.ok false)
        (.error .mpdConnectionError : Except Exc Unit)).1
      = .error .mpdConnectionError :=
  (C3_command_result_unchanged (.error .brokenPipeError) (.ok false)
    (.error .mpdConnectionError)).2 rfl

/-- Claim C6 counterexample: two concrete behaviours contradict the claim.
First, the initial close raises a plain `OSError` (not a broken pipe): the
outer `except socket.error` handler catches it and `do_connect` returns
failure without ever attempting the fresh connection — although the transport
would have accepted it (`connR = .ok ()`) — so failure is not returned "only
when the transport refuses the new connection".  Second, a close failure
outside the tolerated shapes and outside `socket.error` propagates to the
caller, so not every teardown failure is non-fatal. -/
theorem C6_counterexample_teardown_oserror :
    (do_connect (.error .osError) (.ok ()) (.ok ())).1 = .ok false ∧
    (do_connect (.error .osError) (.ok ()) (.ok ())).2.count .connectCall = 0 ∧
    (do_connect (.error .otherError) (.ok ()) (.ok ())).1
      = .error .otherError :=
  ⟨rfl, rfl, rfl⟩

/-- Claim C6 (amended): `do_connect` closes any existing connection first,
passing over an `mpd.ConnectionError` and, on a `BrokenPipeError`, retrying
the close exactly once while ignoring the retry's outcome entirely; it then
opens a fresh connection and returns success; it returns failure when the
transport refuses the fresh connection (a socket error) and also — without
attempting the fresh connection — when the close raises a socket error other
than the two tolerated shapes; a close failure that is neither tolerated nor
a socket error propagates to the caller. -/
theorem C6_do_connect_behaviour (disc1R disc2R disc2R' connR : Except Exc Unit)
    (e : Exc) :
    (tolerated_close disc1R = true → connR = .ok () →
      (do_connect disc1R disc2R connR).1 = .ok true) ∧
    (tolerated_close disc1R = true → connR = .error e →
      isSocketError e = true →
      (do_connect disc1R disc2R connR).1 = .ok false) ∧
    (tolerated_close disc1R = true → connR = .error e →
      isSocketError e = false →
      (do_connect disc1R disc2R connR).1 = .error e) ∧
    (do_connect (.error .brokenPipeError) disc2R connR
      = do_connect (.error .brokenPipeError) disc2R' connR) ∧
    ((do_connect (.error .brokenPipeError) disc2R connR).2.count
        .disconnectCall = 2) ∧
    (disc1R = .error e → tolerated_close disc1R = false →
      isSocketError e = true →
      do_connect disc1R disc2R connR = (.ok false, [.disconnectCall])) ∧
    (disc1R = .error e → tolerated_close disc1R = false →
      isSocketError e = false →
      do_connect disc1R disc2R connR = (.error e, [.disconnectCall])) := by
  refine ⟨?_, ?_, ?_, ?_, ?_, ?_, ?_⟩
  · intro h1 h2
    subst h2
    rcases disc1R with e1 | u
    · rcases e1 <;> simp_all [do_connect, do_connect_fresh, tolerated_close]
    · rfl
  · intro h1 h2 h3
    subst h2
    rcases disc1R with e1 | u
    · rcases e1 <;>
        simp_all [do_connect, do_connect_fresh, tolerated_close]
    · simp [do_connect, do_connect_fresh, h3]
  · intro h1 h2 h3
    subst h2
    rcases disc1R with e1 | u
    · rcases e1 <;>
        simp_all [do_connect, do_connect_fresh, tolerated_close]
    · simp [do_connect, do_connect_fresh, h3]
  · rfl
  · have h2 : (do_connect (.error .brokenPipeError) disc2R connR).2
        = [.disconnectCall, .disconnectCall, .connectCall] := by
      rcases connR with e3 | u
      · rcases e3 <;> rfl
      · rfl
    rw [h2]
    decide
  · intro h1 h2 h3
    subst h1
    rcases e <;> simp_all [do_connect, tolerated_close]
  · intro h1 h2 h3
    subst h1
    rcases e <;> simp_all [do_connect, tolerated_close]

/-- Claim C6 witness: with a clean close and a refused fresh connection,
`do_connect` returns failure. -/
theorem C6_do_connect_behaviour_witness :
    (do_connect (.ok ()) (.ok ()) (.error .osError)).1 = .ok false :=
  (C6_do_connect_behaviour (.ok ()) (.ok ()) (.ok ()) (.error .osError)
    .osError).2.1 rfl rfl rfl

/-- Claim C4 counterexample: the server reports a command name that the client
class does not implement (`hasattr` fails, e.g. a command added in a newer
protocol version); the code skips it with only a debug log, so the wrapped
set is empty while the reported list minus the blacklist still contains the
name — the two differ. -/
theorem C4_counterexample_unknown_attribute :
    establish_commandlist ["albumart"] (fun _ => false) = [] ∧
    List.filter (fun c => !(command_blacklist.contains c)) ["albumart"]
      = ["albumart"] := by
  constructor <;> rfl

/-- Claim C4 (amended): the wrapped command names are the server-reported list
minus the blacklist, restricted to names the client class implements; in
particular, whenever every reported name is implemented the wrapped set is
exactly the reported list minus `{"ping"}`, and `"ping"` is never wrapped. -/
theorem C4_commandlist_amended (l : List String) (hasattr : String → Bool) :
    establish_commandlist l hasattr
      = List.filter (fun c => !(command_blacklist.contains c) && hasattr c) l ∧
    ((∀ c ∈ l, hasattr c = true) →
      establish_commandlist l hasattr
        = List.filter (fun c => !(command_blacklist.contains c)) l) ∧
    "ping" ∉ establish_commandlist l hasattr := by
  refine ⟨rfl, ?_, ?_⟩
  · intro h
    unfold establish_commandlist
    apply List.filter_congr
    intro c hc
    rw [h c hc, Bool.and_true]
  · intro hmem
    have h := List.mem_filter.mp hmem
    simp [command_blacklist] at h

/-- Claim C4 witness (Scenario D): the server reports
`["play", "pause", "ping"]`, all implemented by the client; the resulting
table is exactly `["play", "pause"]`. -/
theorem C4_commandlist_amended_witness :
    establish_commandlist ["play", "pause", "ping"] (fun _ => true)
      = ["play", "pause"] := by
  have h := (C4_commandlist_amended ["play", "pause", "ping"]
    (fun _ => true)).2.1 (fun c _ => rfl)
  rw [h]
  rfl

/-- Claim C5: once `connection_established` is true, any further call to
`establish_connection` leaves the client state — in particular the proxy
table — unchanged, whatever the outcome of the reconnect, of the command
query, and of the attribute checks. -/
theorem C5_established_is_noop (connectOk : Bool)
    (commandsR : Except Exc (List String)) (hasattr : String → Bool)
    (s : ClientState) (h : s.connection_established = true) :
    establish_connection connectOk commandsR hasattr s = s := by
  rcases connectOk <;> simp [establish_connection, h]

/-- Claim C5 witness: a second establish call on an established client with
table `["play", "pause"]` is a no-op, even though the connect succeeded and
the server now reports a different command list. -/
theorem C5_established_is_noop_witness :
    establish_connection true (.ok ["stop"]) (fun _ => true)
        ⟨true, ["play", "pause"]⟩ = ⟨true, ["play", "pause"]⟩ :=
  C5_established_is_noop true (.ok ["stop"]) (fun _ => true)
    ⟨true, ["play", "pause"]⟩ rfl

/-- Unfolding equation for `connectLoop`. -/
lemma connectLoop_eq (att : Nat → AttemptOutcome) (timeout n : Nat) :
    connectLoop att timeout n =
      if n < timeout then
        match att n with
        | .established => (true, n + 1)
        | .raisedAfter => (false, n + 1)
        | .notEstablished => connectLoop att timeout (n + 1)
        | .raisedBefore => connectLoop att timeout (n + 1)
      else (false, n) := by
  rw [connectLoop]

/-- Helper: if no attempt from `n` on (below `timeout`) establishes the
connection or raises after establishing it, the loop runs to the timeout and
reports failure with `timeout` as the final attempt counter. -/
lemma connectLoop_no_success (att : Nat → AttemptOutcome) (timeout : Nat) :
    ∀ fuel n, timeout - n ≤ fuel → n ≤ timeout →
      (∀ i, n ≤ i → i < timeout →
        att i = .notEstablished ∨ att i = .raisedBefore) →
      connectLoop att timeout n = (false, timeout) := by
  intro fuel
  induction fuel with
  | zero =>
    intro n hf hn h
    have hnt : n = timeout := by omega
    subst hnt
    rw [connectLoop_eq]
    simp
  | succ f ih =>
    intro n hf hn h
    rcases Nat.eq_or_lt_of_le hn with heq | hlt
    · subst heq
      rw [connectLoop_eq]
      simp
    · rw [connectLoop_eq, if_pos hlt]
      rcases h n (Nat.le_refl n) hlt with h1 | h1 <;> rw [h1] <;>
        exact ih (n + 1) (by omega) (by omega)
          (fun i hi1 hi2 => h i (by omega) hi2)

/-- Helper: if every attempt before `k` fails quietly and attempt `k`
(below `timeout`) establishes the connection, the loop stops there with
success after `k + 1` attempts. -/
lemma connectLoop_success (att : Nat → AttemptOutcome) (timeout k : Nat)
    (hk : k < timeout) (hsucc : att k = .established) :
    ∀ fuel n, k - n ≤ fuel → n ≤ k →
      (∀ i, n ≤ i → i < k →
        att i = .notEstablished ∨ att i = .raisedBefore) →
      connectLoop att timeout n = (true, k + 1) := by
  intro fuel
  induction fuel with
  | zero =>
    intro n hf hn h
    have hnk : n = k := by omega
    subst hnk
    rw [connectLoop_eq]
    simp [hk, hsucc]
  | succ f ih =>
    intro n hf hn h
    rcases Nat.eq_or_lt_of_le hn with heq | hlt
    · subst heq
      rw [connectLoop_eq]
      simp [hk, hsucc]
    · have hnt : n < timeout := by omega
      rw [connectLoop_eq, if_pos hnt]
      rcases h n (Nat.le_refl n) hlt with h1 | h1 <;> rw [h1] <;>
        exact ih (n + 1) (by omega) (by omega)
          (fun i hi1 hi2 => h i (by omega) hi2)

/-- Claim C7: if the attempts with index below `k` fail to establish the
connection and the attempt with index `k < timeout` establishes it, the
start-up retry loop stops immediately on that attempt, returning success with
exactly `k + 1` attempts made. -/
theorem C7_startup_loop_established (att : Nat → AttemptOutcome)
    (k timeout : Nat) (hk : k < timeout)
    (hbefore : ∀ i, i < k → att i = .notEstablished)
    (hsucc : att k = .established) :
    connectMPD true false att timeout = (true, k + 1) := by
  have h := connectLoop_success att timeout k hk hsucc k 0 (by omega)
    (by omega) (fun i hi1 hi2 => Or.inl (hbefore i hi2))
  simpa [connectMPD] using h

/-- Claim C7 witness (Scenario A): the server becomes reachable from the
attempt with index 3 on (after ≈3 seconds of one-second-interval attempts);
with `timeout = 10` the loop returns established on the 4th attempt. -/
theorem C7_startup_loop_established_witness :
    connectMPD true false
        (fun n => if n < 3 then .notEstablished else .established) 10
      = (true, 4) :=
  C7_startup_loop_established
    (fun n => if n < 3 then .notEstablished else .established) 3 10
    (by omega) (fun i hi => by simp [hi]) rfl

/-- Claim C8: when no attempt establishes the connection within the window,
the start-up retry loop makes exactly `timeout` attempts and returns the
timed-out result `false`; exceptions inside an attempt are absorbed by the
loop's `except Exception: pass`, so (as the total return type shows) nothing
propagates to the caller. -/
theorem C8_startup_loop_times_out (att : Nat → AttemptOutcome)
    (timeout : Nat) (h : ∀ i, i < timeout → att i = .notEstablished) :
    connectMPD true false att timeout = (false, timeout) := by
  have hh := connectLoop_no_success att timeout timeout 0 (by omega)
    (by omega) (fun i hi1 hi2 => Or.inl (h i hi2))
  simpa [connectMPD] using hh

/-- Claim C8 witness (Scenario B): the server stays unreachable for the whole
window; with `timeout = 5` the loop returns `false` after exactly 5
attempts. -/
theorem C8_startup_loop_times_out_witness :
    connectMPD true false (fun _ => .notEstablished) 5 = (false, 5) :=
  C8_startup_loop_times_out (fun _ => .notEstablished) 5 (fun i _ => rfl)

/-- Claim C9: `disconnect` is idempotent and two consecutive calls never
raise; consequently the teardown paths of the program — the `finally` block
of `main` followed by the finalizer, each possibly calling `disconnect` on the
same client — always return normally. -/
theorem C9_disconnect_idempotent (s : MPDConn)
    (clientPresent isConn mpdPresent : Bool) :
    (disconnect s).bind disconnect = disconnect s ∧
    (∃ t, (disconnect s).bind disconnect = Except.ok t) ∧
    (∃ t, (main_teardown clientPresent isConn s).bind (finalize mpdPresent)
      = Except.ok t) := by
  refine ⟨rfl, ⟨⟨false⟩, rfl⟩, ?_⟩
  rcases clientPresent <;> rcases isConn <;> rcases mpdPresent <;>
    exact ⟨_, rfl⟩
